import Mathlib

/-!
Verification of the HackClub Events Radar pipeline core.

This file gives a shallow embedding, in Lean 4, of the bounded-concurrency,
rate-limited, two-stage pipeline of the repository (src/main.rs, src/probe.rs,
src/llm.rs, src/ratelimit.rs, src/config.rs, src/types.rs), and settles the
frozen specification claims against it.

Modelling conventions:
* Rust `Option<T>` becomes `Option T`; `u16`/`u32`/`usize` counts become `Nat`
  (no arithmetic here ever overflows or wraps in the source).
* Network effects are represented by explicit outcome values passed to the
  embedded functions: `probe` is a function of the transport outcome of its one
  HTTP request, `extract_hackathons` a function of the outcome of its one API
  call.  The functions themselves are total, mirroring the Rust code's
  catch-everything structure.
* Library primitives the code leans on (tokio `Semaphore` permits,
  `futures::stream::buffer_unordered`, Rust `str` trimming) are embedded from
  their documented semantics; each such definition says so in its doc comment.
* `serde_json::from_str::<Vec<Hackathon>>` is kept abstract as a parameter
  `parse : String → Option (List Hackathon)`; theorems that need a concrete
  fact about it (such as `parse "[]" = some []`) take that fact as a
  hypothesis and exhibit it on a concrete parser in their witnesses.
-/

-- ── Configuration constants (src/config.rs) ─────────────────────────────────

/-- Concurrency level for parallel HTTP requests, src/config.rs line 4. -/
def HTTP_CONCURRENCY : Nat := 20

/-- Concurrency level for LLM queries, src/config.rs line 8. -/
def LLM_CONCURRENCY : Nat := 4

/-- NVIDIA NIM API rate limit in requests per minute, src/config.rs line 12. -/
def LLM_RATE_LIMIT_PER_MINUTE : Nat := 40

/-- Maximum characters of HTML sent to the LLM, src/config.rs line 24. -/
def HTML_TRUNCATE_CHARS : Nat := 12000

-- ── Data model (src/types.rs) ────────────────────────────────────────────────

/-- Result of probing a single URL, src/types.rs `ProbeResult`. -/
structure ProbeResult where
  subdomain : String
  status : Option Nat
  content : Option String
  error : Option String
deriving DecidableEq, Repr

/-- A hackathon event extracted from HTML content, src/types.rs `Hackathon`. -/
structure Hackathon where
  name : String
  url : String
  dates : String
  summary : String
deriving DecidableEq, Repr

-- ── Prober (src/probe.rs) ────────────────────────────────────────────────────

/-- Outcome of the single `client.get(url).send()` call made by `probe`,
together with the outcome of the subsequent `resp.text()` body read when the
send succeeded.  `ok status bodyRead` is a transport success carrying the HTTP
status code; `err e` is a transport failure (connection, DNS, timeout). -/
inductive SendOutcome where
  | ok (status : Nat) (bodyRead : Except String String)
  | err (e : String)
deriving Repr

/-- Embedding of `probe` (src/probe.rs lines 15-40): one request, three result
shapes, no error propagation to the caller. -/
def probe (url : String) (net : SendOutcome) : ProbeResult :=
  match net with
  | .ok status (.ok body) =>
      { subdomain := url, status := some status, content := some body, error := none }
  | .ok status (.error e) =>
      { subdomain := url, status := some status, content := none, error := some e }
  | .err e =>
      { subdomain := url, status := none, content := none, error := some e }

/-- Shape status+body: transport and body read both succeeded. -/
def okBodyShape (p : ProbeResult) : Prop :=
  p.status.isSome = true ∧ p.content.isSome = true ∧ p.error = none

/-- Shape status+error: transport succeeded, body read failed. -/
def readErrShape (p : ProbeResult) : Prop :=
  p.status.isSome = true ∧ p.content = none ∧ p.error.isSome = true

/-- Shape error alone: transport failed. -/
def transportErrShape (p : ProbeResult) : Prop :=
  p.status = none ∧ p.content = none ∧ p.error.isSome = true

/-- Exactly one of the three mutually exclusive `ProbeResult` shapes holds. -/
def exactlyOneShape (p : ProbeResult) : Prop :=
  (okBodyShape p ∧ ¬ readErrShape p ∧ ¬ transportErrShape p) ∨
  (¬ okBodyShape p ∧ readErrShape p ∧ ¬ transportErrShape p) ∨
  (¬ okBodyShape p ∧ ¬ readErrShape p ∧ transportErrShape p)

-- ── Stage-2 input filter (src/main.rs lines 136-142) ─────────────────────────

/-- The per-outcome selection main.rs applies when building stage 2's input:
`match (p.status, p.content) { (Some(s), Some(c)) if s < 400 => Some((p.subdomain, c)), _ => None }`. -/
def stage2Select (p : ProbeResult) : Option (String × String) :=
  match p.status, p.content with
  | some s, some c => if s < 400 then some (p.subdomain, c) else none
  | _, _ => none

/-- The full stage-2 input list (`successes` in main.rs): the filter-map of
`stage2Select` over the probe outcomes. -/
def stage2Input (ps : List ProbeResult) : List (String × String) :=
  ps.filterMap stage2Select

-- ── Theorems ────────────────────────────────────────────────────────────────

/-- C4: the input to stage 2 is exactly the outcomes whose status is present
with value < 400 and whose body is present: an outcome is selected iff some
status `s < 400` is present and the content is present; status 399 with a body
is included, status 400 is excluded, and a missing body excludes the outcome
regardless of the status code; the stage-2 list is the filter-map of this
selection over all outcomes. -/
theorem c4_stage2_filter_exact :
    (∀ p : ProbeResult,
      (stage2Select p).isSome = true ↔
        ((∃ s, p.status = some s ∧ s < 400) ∧ p.content.isSome = true)) ∧
    (∀ u c e, stage2Select ⟨u, some 399, some c, e⟩ = some (u, c)) ∧
    (∀ u c e, stage2Select ⟨u, some 400, some c, e⟩ = none) ∧
    (∀ u s e, stage2Select ⟨u, some s, none, e⟩ = none) ∧
    (∀ ps, stage2Input ps = ps.filterMap stage2Select) := by
  refine ⟨?_, ?_, ?_, ?_, fun _ => rfl⟩
  · intro p
    rcases p with ⟨u, st, ct, er⟩
    rcases st with _ | s <;> rcases ct with _ | c <;>
      simp only [stage2Select, Option.isSome_none, Option.isSome_some]
    · simp
    · simp
    · simp
    · by_cases h : s < 400 <;> simp [h]
  · intro u c e; simp [stage2Select]
  · intro u c e; simp [stage2Select]
  · intro u s e; simp [stage2Select]

/-- C6: `probe` is total — for every URL and every outcome of its one network
call it returns a `ProbeResult` (it is a total function of both) — and the
returned result populates exactly one of the three mutually exclusive shapes
status+body, status+error, error alone; the status field is present iff the
transport succeeded. -/
theorem c6_probe_total_exactly_one_shape (url : String) (net : SendOutcome) :
    exactlyOneShape (probe url net) ∧
    ((probe url net).status.isSome = true ↔ ∃ s r, net = .ok s r) := by
  rcases net with ⟨status, e | b⟩ | e
  · refine ⟨Or.inr (Or.inl ?_), ⟨fun _ => ⟨status, .error e, rfl⟩, fun _ => by simp [probe]⟩⟩
    simp [probe, okBodyShape, readErrShape, transportErrShape]
  · refine ⟨Or.inl ?_, ⟨fun _ => ⟨status, .ok b, rfl⟩, fun _ => by simp [probe]⟩⟩
    simp [probe, okBodyShape, readErrShape, transportErrShape]
  · refine ⟨Or.inr (Or.inr ?_), by simp [probe]⟩
    simp [probe, okBodyShape, readErrShape, transportErrShape]

-- ── RateLimiter (src/ratelimit.rs) and tokio Semaphore semantics ─────────────

/-- Model of the available-permit count of a `tokio::sync::Semaphore` after a
successful `acquire` (embedded from the tokio documentation: acquire waits
until at least one permit is available, then atomically takes one). -/
def semAcquired (available : Nat) : Nat := available - 1

/-- Model of `Semaphore::add_permits(n)` (tokio documentation: adds `n` new
permits, with no upper cap of its own). -/
def addPermits (n available : Nat) : Nat := available + n

/-- Model of dropping the `SemaphorePermit` that `RateLimiter::acquire`
(src/ratelimit.rs lines 57-59) hands to its caller.  Embedded from the tokio
documentation: the `Drop` implementation of `SemaphorePermit` returns the
permit to the semaphore, i.e. performs `add_permits(1)`; only calling
`permit.forget()` would prevent this, and src/ratelimit.rs never calls it. -/
def permitDropRelease (available : Nat) : Nat := addPermits 1 available

/-- Initial available-permit count of the limiter: `Semaphore::new(1)` in
`RateLimiter::new`, src/ratelimit.rs line 31. -/
def rlInit : Nat := 1

/-- One replenishment tick of the background task spawned by
`RateLimiter::new` (src/ratelimit.rs lines 44-49): add one permit iff the
available count is strictly below `requests_per_minute`. -/
def rlTick (rpm available : Nat) : Nat :=
  if available < rpm then available + 1 else available

/-- The acquire/replenish step relation of the RateLimiter on its
available-permit count: a replenishment tick, or a successful acquire (enabled
only when a permit is available). -/
inductive RLStep (rpm : Nat) : Nat → Nat → Prop
  | tick (a : Nat) : RLStep rpm a (rlTick rpm a)
  | acquire (a : Nat) : 0 < a → RLStep rpm a (semAcquired a)

/-- Reachability of an available-permit count from the freshly constructed
limiter under the acquire/replenish step relation. -/
inductive RLReach (rpm : Nat) : Nat → Prop
  | init : RLReach rpm rlInit
  | step {a b : Nat} : RLReach rpm a → RLStep rpm a b → RLReach rpm b

-- ── Extract-stage task structure (src/main.rs lines 160-183) ─────────────────

/-- One observable effect of the per-item async task of the extract (stage 2)
fan-out in main.rs. `acquirePermit` stands for a `RateLimiter::acquire` call;
it is listed so that its absence from the task body can be stated. -/
inductive LlmAction where
  | acquirePermit
  | extractCall (url html : String)
  | bumpCounter
  | reportProgress
deriving DecidableEq, Repr

/-- The per-item async block of the extract fan-out (src/main.rs lines
160-183) as its ordered list of effects: it immediately awaits
`extract_hackathons(&client, &api_key, &url, &html)`, then performs
`llm_done.fetch_add(1)`, then prints progress and yields the result.  No
`RateLimiter` is constructed or acquired anywhere in main.rs — the
`ratelimit` module is exported by lib.rs but unused by the binary. -/
def llmItemTask (url html : String) : List LlmAction :=
  [.extractCall url html, .bumpCounter, .reportProgress]

-- ── Theorems: C1, C2, C3 ─────────────────────────────────────────────────────

/-- C1 (code_bug record): contrary to the claim, a dispatched extract-stage
item begins its `extract_hackathons` call as its very first effect and its
task body contains no `RateLimiter::acquire` at all, so every extract call is
started without a permit having been acquired for it. -/
theorem c1_extract_starts_without_permit (url html : String) :
    (llmItemTask url html).head? = some (.extractCall url html) ∧
    LlmAction.acquirePermit ∉ llmItemTask url html := by
  exact ⟨rfl, by simp [llmItemTask]⟩

/-- C2 (code_bug record): contrary to the claim, releasing an acquired permit
does return it to the pool.  Dropping the `SemaphorePermit` returned by
`RateLimiter::acquire` adds one permit back, so the available count after the
release is one more than immediately before, never equal; in particular an
acquire followed by a release restores the pre-acquire available count
exactly, so capacity does not increase only through replenishment ticks. -/
theorem c2_release_returns_permit_to_pool :
    (∀ a : Nat, permitDropRelease a = a + 1 ∧ permitDropRelease a ≠ a) ∧
    (∀ a : Nat, 0 < a → permitDropRelease (semAcquired a) = a) := by
  constructor
  · intro a
    exact ⟨rfl, by simp [permitDropRelease, addPermits]⟩
  · intro a ha
    simp only [permitDropRelease, addPermits, semAcquired]
    omega

/-- Witness for C2's second conjunct: at `a = 1` the hypothesis `0 < 1` holds
and the acquire/release round trip restores the available count. -/
theorem c2_release_returns_permit_to_pool_witness :
    0 < 1 ∧ permitDropRelease (semAcquired 1) = 1 :=
  ⟨by decide, c2_release_returns_permit_to_pool.2 1 (by decide)⟩

/-- C3 counterexample: for a RateLimiter constructed with
`requests_per_minute = 0`, the initial state — reachable by zero steps — has
one available permit, which exceeds the configured maximum of 0; so the
claim's invariant does not hold for every RateLimiter. -/
theorem c3_zero_rpm_counterexample : RLReach 0 1 ∧ ¬ (1 ≤ 0) :=
  ⟨RLReach.init, by decide⟩

/-- C3 (amended): for every RateLimiter whose `requests_per_minute` is at
least 1, every available-permit count reachable under the acquire/replenish
step relation is at most `requests_per_minute` (the configured maximum the
replenishment loop enforces), and each replenishment tick adds exactly one
permit when the available count is below that maximum and leaves it unchanged
otherwise. -/
theorem c3_available_bounded (rpm : Nat) (hrpm : 1 ≤ rpm) :
    (∀ a, RLReach rpm a → a ≤ rpm) ∧
    (∀ a, a < rpm → rlTick rpm a = a + 1) ∧
    (∀ a, rpm ≤ a → rlTick rpm a = a) := by
  refine ⟨?_, ?_, ?_⟩
  · intro a hreach
    induction hreach with
    | init => exact hrpm
    | step _ hstep ih =>
        cases hstep with
        | tick => unfold rlTick; split <;> omega
        | acquire ha => unfold semAcquired; omega
  · intro a h; simp [rlTick, h]
  · intro a h; simp [rlTick, Nat.not_lt.mpr h]

/-- Witness for C3's amended theorem at `rpm = 1`: the hypothesis `1 ≤ 1`
holds, the initial state is reachable and within the bound, a tick from 0 adds
exactly one permit, and a tick at the maximum adds none. -/
theorem c3_available_bounded_witness :
    1 ≤ 1 ∧ 1 ≤ 1 ∧ rlTick 1 0 = 1 ∧ rlTick 1 1 = 1 :=
  ⟨by decide, (c3_available_bounded 1 (by decide)).1 1 RLReach.init,
    (c3_available_bounded 1 (by decide)).2.1 0 (by decide),
    (c3_available_bounded 1 (by decide)).2.2 1 (by decide)⟩

-- ── Progress counters (src/main.rs lines 66-92 and 160-183) ──────────────────

/-- The successive values of a stage's shared progress counter, starting from
`c`, as the stage's items complete in the order given by `order`: every item's
task performs one `fetch_add(1, Ordering::Relaxed)` on completion, before and
independently of whether its own result was a success or a failure. -/
def counterTrace {α : Type} : List α → Nat → List Nat
  | [], c => [c]
  | _ :: rest, c => c :: counterTrace rest (c + 1)

/-- The final value of a stage's progress counter after all items of `order`
have completed: the fold of the per-completion increment from 0. -/
def finalCounter {α : Type} (order : List α) : Nat :=
  order.foldl (fun c _ => c + 1) 0

/-- Helper: the counter trace from `c` is `[c, c+1, ..., c+n]`. -/
theorem counterTrace_eq {α : Type} :
    ∀ (l : List α) (c : Nat),
      counterTrace l c = (List.range (l.length + 1)).map (c + ·) := by
  intro l
  induction l with
  | nil => intro c; simp [counterTrace, show List.range 1 = [0] from rfl]
  | cons a rest ih =>
      intro c
      rw [counterTrace, ih, List.length_cons,
        List.range_succ_eq_map (rest.length + 1), List.map_cons, List.map_map]
      congr 1
      apply List.map_congr_left
      intro k _
      simp only [Function.comp_apply, Nat.succ_eq_add_one]
      omega

/-- Helper: the increment fold counts exactly the list length. -/
theorem finalCounter_eq_length {α : Type} (order : List α) :
    finalCounter order = order.length := by
  have h : ∀ (l : List α) (c : Nat), l.foldl (fun c _ => c + 1) c = c + l.length := by
    intro l
    induction l with
    | nil => intro c; simp
    | cons a rest ih => intro c; simp [List.foldl, ih]; omega
  simpa [finalCounter] using h order 0

/-- C5: for every input list of N items and every completion order (any
permutation of the inputs), the stage's progress counter is incremented
exactly once per completed item — its value trace from 0 is exactly
`[0, 1, ..., N]`, hence never decreasing — and its final value equals N, the
input count, regardless of the order in which items complete. -/
theorem c5_progress_counter (items order : List Nat) (hperm : order.Perm items) :
    finalCounter order = items.length ∧
    counterTrace order 0 = List.range (order.length + 1) ∧
    List.Chain' (· ≤ ·) (counterTrace order 0) := by
  have htrace : counterTrace order 0 = List.range (order.length + 1) := by
    simpa using counterTrace_eq order 0
  refine ⟨?_, htrace, ?_⟩
  · rw [finalCounter_eq_length]
    exact hperm.length_eq
  · rw [htrace]
    rcases Nat.eq_zero_or_pos order.length with h | h
    · simp [h, show List.range 1 = [0] from rfl]
    · rw [show order.length + 1 = (order.length - 1) + 1 + 1 by omega]
      rw [List.chain'_range_succ]
      intro m _
      omega

/-- Witness for C5: the concrete completion order `[30, 10, 20]` is a
permutation of the input `[10, 20, 30]`, and the final counter equals the
input count 3. -/
theorem c5_progress_counter_witness :
    ([30, 10, 20] : List Nat).Perm [10, 20, 30] ∧
    finalCounter ([30, 10, 20] : List Nat) = ([10, 20, 30] : List Nat).length :=
  ⟨by decide, (c5_progress_counter [10, 20, 30] [30, 10, 20] (by decide)).1⟩

-- ── Extractor truncation and prompt (src/llm.rs lines 25-44) ─────────────────

/-- Embedding of `let truncated: String = html.chars().take(HTML_TRUNCATE_CHARS).collect()`
(src/llm.rs line 26), on the body's character sequence. -/
def truncateHtml (html : List Char) : List Char :=
  html.take HTML_TRUNCATE_CHARS

/-- The fixed text of the analysis prompt that precedes the embedded body:
everything of the `format!` template in src/llm.rs lines 28-44 up to the final
`{truncated}` placeholder, with `{url}` interpolated. -/
def promptPrefixFor (url : String) : String :=
  "You are a hackathon finder. Given HTML from the page \"" ++ url ++
  "\", extract any hackathons mentioned.\n\nFor each hackathon found, respond with a JSON array. Each object must have exactly these fields:\n- \"name\": hackathon name\n- \"url\": most specific URL for the hackathon (use \"" ++ url ++
  "\" if no better link found)\n- \"dates\": date or date range as a string (e.g. \"March 15–17, 2025\"), or \"Unknown\" if not found\n- \"summary\": one sentence describing the hackathon\n\nIf there are no hackathons on this page, respond with an empty array: []\nRespond with ONLY the JSON array, no other text.\n\nHTML:\n"

/-- The full analysis prompt: the fixed prefix followed by the truncated body
(the `{truncated}` placeholder ends the template, so the body appears in the
request only here, after truncation and otherwise unmodified). -/
def promptFor (url : String) (html : List Char) : List Char :=
  (promptPrefixFor url).data ++ truncateHtml html

-- ── Theorem: C8 ──────────────────────────────────────────────────────────────

/-- C8: the text embedded in the analysis request is the body truncated by
character count to the configured limit of 12,000 — the prompt is the fixed
prefix followed by exactly `html.take HTML_TRUNCATE_CHARS`, so truncation is
applied before any other processing of the body — and a body of `L`
characters is sent unmodified when `L ≤ 12000` and cut to exactly 12,000
characters when `L > 12000`. -/
theorem c8_truncation (url : String) (html : List Char) :
    promptFor url html = (promptPrefixFor url).data ++ html.take HTML_TRUNCATE_CHARS ∧
    HTML_TRUNCATE_CHARS = 12000 ∧
    (html.length ≤ HTML_TRUNCATE_CHARS → truncateHtml html = html) ∧
    (HTML_TRUNCATE_CHARS < html.length →
      (truncateHtml html).length = HTML_TRUNCATE_CHARS) := by
  refine ⟨rfl, rfl, ?_, ?_⟩
  · intro h
    exact List.take_of_length_le h
  · intro h
    simp only [truncateHtml, List.length_take]
    omega

/-- Witness for C8: a body of 12,001 characters exceeds the limit and is cut
to exactly 12,000 characters; a body of one character is at most the limit
and passes through unmodified. -/
theorem c8_truncation_witness :
    HTML_TRUNCATE_CHARS < (List.replicate 12001 'x').length ∧
    (truncateHtml (List.replicate 12001 'x')).length = HTML_TRUNCATE_CHARS ∧
    (['a'] : List Char).length ≤ HTML_TRUNCATE_CHARS ∧
    truncateHtml ['a'] = ['a'] :=
  ⟨by rw [List.length_replicate]; norm_num [HTML_TRUNCATE_CHARS],
    (c8_truncation "u" (List.replicate 12001 'x')).2.2.2
      (by rw [List.length_replicate]; norm_num [HTML_TRUNCATE_CHARS]),
    by norm_num [HTML_TRUNCATE_CHARS],
    (c8_truncation "u" ['a']).2.2.1 (by norm_num [HTML_TRUNCATE_CHARS])⟩

-- ── Response cleaning (src/llm.rs lines 66-71) ───────────────────────────────

/-- Embedding of Rust `str::trim` (documented semantics: remove leading and
trailing whitespace) on a character list. -/
def rustTrimChars (s : List Char) : List Char :=
  ((s.dropWhile Char.isWhitespace).reverse.dropWhile Char.isWhitespace).reverse

/-- Fuel-driven core of Rust `str::trim_start_matches` (documented semantics:
repeatedly remove the prefix while it matches).  The fuel is an upper bound on
the number of strips; each successful strip of a non-empty pattern removes at
least one character, so fuel `s.length` is always enough. -/
def stripLeadAux (pat : List Char) : Nat → List Char → List Char
  | 0, s => s
  | fuel + 1, s =>
      if !pat.isEmpty && pat.isPrefixOf s then
        stripLeadAux pat fuel (s.drop pat.length)
      else s

/-- Embedding of Rust `str::trim_start_matches(pat)` for a non-empty literal
pattern. -/
def stripLead (pat s : List Char) : List Char :=
  stripLeadAux pat s.length s

/-- Embedding of Rust `str::trim_end_matches(pat)`: strip the pattern
repeatedly from the end, implemented by reversal. -/
def stripTrail (pat s : List Char) : List Char :=
  (stripLead pat.reverse s.reverse).reverse

/-- Embedding of the response-cleaning chain of src/llm.rs lines 66-71:
`text.trim().trim_start_matches("```json").trim_start_matches("```").trim_end_matches("```").trim()`. -/
def cleanFences (text : String) : String :=
  let t1 := rustTrimChars text.data
  let t2 := stripLead "```json".data t1
  let t3 := stripLead "```".data t2
  let t4 := stripTrail "```".data t3
  String.mk (rustTrimChars t4)

-- ── JSON envelope access (src/llm.rs lines 59-63, serde_json semantics) ──────

/-- Model of a `serde_json::Value`. -/
inductive JsonVal where
  | null
  | bool (b : Bool)
  | num (n : Int)
  | str (s : String)
  | arr (xs : List JsonVal)
  | obj (fields : List (String × JsonVal))
deriving Repr

/-- Model of `Value` string indexing (serde_json documented semantics: on an
object, the field's value or `Null` when absent; `Null` on any non-object). -/
def jGet (j : JsonVal) (k : String) : JsonVal :=
  match j with
  | .obj fields =>
      match fields.find? (fun f => f.1 = k) with
      | some f => f.2
      | none => .null
  | _ => .null

/-- Model of `Value` array indexing (serde_json documented semantics: on an
array, the element or `Null` when out of range; `Null` on any non-array). -/
def jIdx (j : JsonVal) (i : Nat) : JsonVal :=
  match j with
  | .arr xs => xs.getD i .null
  | _ => .null

/-- Model of `Value::as_str`. -/
def jAsStr (j : JsonVal) : Option String :=
  match j with
  | .str s => some s
  | _ => none

/-- The content lookup of src/llm.rs lines 60-62:
`json["choices"][0]["message"]["content"].as_str()`. -/
def contentAsStr (j : JsonVal) : Option String :=
  jAsStr (jGet (jGet (jIdx (jGet j "choices") 0) "message") "content")

-- ── Extractor (src/llm.rs lines 14-74) ───────────────────────────────────────

/-- Outcome of the one chat-completions API call made by `extract_hackathons`:
`sendErr` is a transport failure of `send()` (connection failure, timeout,
credential transport problems); `bodyDecodeErr` is a response received (with
the given HTTP status) whose body failed `resp.json()` decoding; `resp` is a
response received (with the given HTTP status) whose body decoded to the given
JSON value.  The status is carried because the code receives it, even though
`extract_hackathons` never inspects it. -/
inductive LlmNet where
  | sendErr (e : String)
  | bodyDecodeErr (status : Nat) (e : String)
  | resp (status : Nat) (j : JsonVal)
deriving Repr

/-- Embedding of `extract_hackathons` (src/llm.rs lines 21-74) as a function
of the API call's outcome.  `parse` abstracts
`serde_json::from_str::<Vec<Hackathon>>`; `unwrap_or("[]")` and
`unwrap_or_default()` become `Option.getD`.  The two `?` operators propagate
`sendErr` and `bodyDecodeErr` as errors; every decoded response — whatever its
HTTP status — flows into the content-extraction path and yields `Except.ok`. -/
def extract_hackathons (parse : String → Option (List Hackathon))
    (net : LlmNet) : Except String (List Hackathon) :=
  match net with
  | .sendErr e => .error e
  | .bodyDecodeErr _ e => .error e
  | .resp _ j =>
      let text := (contentAsStr j).getD "[]"
      let clean := cleanFences text
      .ok ((parse clean).getD [])

/-- A concrete stand-in for `serde_json::from_str::<Vec<Hackathon>>` used in
witnesses: it parses the empty JSON array and nothing else, agreeing with
serde_json on the inputs at which the theorems are instantiated. -/
def demoParse : String → Option (List Hackathon) :=
  fun s => if s = "[]" then some [] else none

/-- Cleaning the default text `"[]"` leaves it unchanged. -/
theorem cleanFences_brackets : cleanFences "[]" = "[]" := by decide

-- ── Theorems: C7, C10 ────────────────────────────────────────────────────────

/-- C7 counterexample: a credential rejection arrives as an HTTP 401 response
whose body is a well-formed JSON error object; `extract_hackathons` returns
`Ok` with an empty sequence on it — not an error — because the code never
inspects the HTTP status and the error object has no
`choices[0].message.content` field.  This refutes the claim that credential
rejections are returned as an error. -/
theorem c7_credential_rejection_not_error :
    extract_hackathons demoParse
      (.resp 401 (.obj [("error",
        .obj [("message", .str "Invalid API key"), ("code", .num 401)])]))
      = .ok [] := by
  rfl

/-- C7 (amended): for every response whose cleaned content text fails
structural parsing, `extract_hackathons` returns `Ok` with an empty sequence
rather than an error; transport failures of the analysis call (connection
failure, timeout) and responses whose bodies fail JSON decoding are returned
as an error; but an HTTP-level credential rejection whose reply body is valid
JSON is not surfaced as an error — like any decoded response, it yields `Ok`. -/
theorem c7_parse_failure_vs_network_error
    (parse : String → Option (List Hackathon)) :
    (∀ st j, parse (cleanFences ((contentAsStr j).getD "[]")) = none →
      extract_hackathons parse (.resp st j) = .ok []) ∧
    (∀ e, extract_hackathons parse (.sendErr e) = .error e) ∧
    (∀ st e, extract_hackathons parse (.bodyDecodeErr st e) = .error e) ∧
    (∀ st j, ∀ e, extract_hackathons parse (.resp st j) ≠ .error e) := by
  refine ⟨?_, fun _ => rfl, fun _ _ => rfl, ?_⟩
  · intro st j hfail
    simp only [extract_hackathons, hfail, Option.getD_none]
  · intro st j e
    simp [extract_hackathons]

/-- Witness for C7's amended theorem: a model reply of plain prose fails the
concrete parser, and the extractor returns `Ok []` on it; a connection
timeout is returned as an error. -/
theorem c7_parse_failure_vs_network_error_witness :
    demoParse (cleanFences ((contentAsStr
      (.obj [("choices", .arr [.obj [("message",
        .obj [("content", .str "Sorry, I cannot find hackathons here.")])]])])).getD "[]"))
      = none ∧
    extract_hackathons demoParse
      (.resp 200 (.obj [("choices", .arr [.obj [("message",
        .obj [("content", .str "Sorry, I cannot find hackathons here.")])]])]))
      = .ok [] ∧
    extract_hackathons demoParse (.sendErr "connection timed out")
      = .error "connection timed out" :=
  ⟨by decide,
    (c7_parse_failure_vs_network_error demoParse).1 200 _ (by decide),
    (c7_parse_failure_vs_network_error demoParse).2.1 "connection timed out"⟩

/-- C10: for every decoded API response in which `choices[0].message.content`
is absent or not a string, `extract_hackathons` substitutes the literal text
`"[]"`, which survives fence-cleaning unchanged, and — for any parser that
reads `"[]"` as the empty array, as serde_json does — returns `Ok` with an
empty sequence, not an error. -/
theorem c10_missing_content_is_ok_empty
    (parse : String → Option (List Hackathon)) (st : Nat) (j : JsonVal)
    (hparse : parse "[]" = some []) (hmissing : contentAsStr j = none) :
    extract_hackathons parse (.resp st j) = .ok [] := by
  simp only [extract_hackathons, hmissing, Option.getD_none,
    cleanFences_brackets, hparse, Option.getD_some]

/-- Witness for C10: the concrete parser reads `"[]"` as the empty array, the
content lookup fails on a decoded response that is a bare JSON string, and
the extractor returns `Ok []` there. -/
theorem c10_missing_content_is_ok_empty_witness :
    demoParse "[]" = some [] ∧
    contentAsStr (.str "upstream overloaded") = none ∧
    extract_hackathons demoParse (.resp 200 (.str "upstream overloaded"))
      = .ok [] :=
  ⟨by decide, rfl,
    c10_missing_content_is_ok_empty demoParse 200 _ (by decide) rfl⟩

-- ── Fan-out scheduler (futures buffer_unordered, src/main.rs lines 66-92, 148-191) ──

/-- State of one stage's fan-out over items of type `α`: the items not yet
dispatched, the items currently in flight, and the completed items. -/
structure FanState (α : Type) where
  pending : List α
  inflight : List α
  done : List α
deriving DecidableEq, Repr

/-- Dispatch step of `buffer_unordered(K)` (embedded from the futures
documentation: when polled, the combinator starts futures from the underlying
stream until `K` are in flight): move items from `pending` into `inflight`
until the in-flight count reaches `K` or `pending` is exhausted. -/
def fillSlots {α : Type} (K : Nat) (s : FanState α) : FanState α :=
  { pending := s.pending.drop (K - s.inflight.length)
    inflight := s.inflight ++ s.pending.take (K - s.inflight.length)
    done := s.done }

/-- Completion step: the in-flight item at position `i` (a scheduler choice)
finishes and moves to `done`; an out-of-range choice changes nothing. -/
def completeOne {α : Type} (i : Nat) (s : FanState α) : FanState α :=
  { pending := s.pending
    inflight := s.inflight.eraseIdx i
    done := s.done ++ (s.inflight.get? i).toList }

/-- The sequence of states of a `buffer_unordered(K)` run, driven by a
completion schedule: each observable state is reached by topping the in-flight
set up from `pending` (dispatch is eager — a freed slot is refilled before the
next completion is taken, which is the continuous-replenishment behaviour of
the combinator), and successive states are separated by one completion chosen
by the schedule.  In-between instants only ever hold fewer in-flight items
than the surrounding observable states, since a completion only removes. -/
def fanTrace {α : Type} (K : Nat) : List Nat → FanState α → List (FanState α)
  | [], s => [fillSlots K s]
  | i :: rest, s =>
      let f := fillSlots K s
      f :: fanTrace K rest (completeOne i f)

/-- Helper: erasing an index never lengthens a list. -/
theorem eraseIdx_length_le {β : Type} :
    ∀ (l : List β) (i : Nat), (l.eraseIdx i).length ≤ l.length := by
  intro l
  induction l with
  | nil => intro i; simp [List.eraseIdx]
  | cons a t ih =>
      intro i
      cases i with
      | zero => simp [List.eraseIdx]
      | succ n => simpa [List.eraseIdx] using ih n

/-- Helper: filling preserves the concurrency bound. -/
theorem fillSlots_le {α : Type} (K : Nat) (s : FanState α)
    (h : s.inflight.length ≤ K) : (fillSlots K s).inflight.length ≤ K := by
  simp only [fillSlots, List.length_append, List.length_take]
  omega

/-- Helper: after filling, pending items remain only when all K slots are
occupied. -/
theorem fillSlots_full {α : Type} (K : Nat) (s : FanState α)
    (h : s.inflight.length ≤ K) (hp : (fillSlots K s).pending ≠ []) :
    (fillSlots K s).inflight.length = K := by
  have hd : (s.pending.drop (K - s.inflight.length)).length ≠ 0 := by
    intro hlen
    exact hp (List.eq_nil_of_length_eq_zero hlen)
  rw [List.length_drop] at hd
  simp only [fillSlots, List.length_append, List.length_take]
  omega

/-- Helper: the invariant along every fan-out trace, from any state within
the bound. -/
theorem fanTrace_invariant {α : Type} (K : Nat) :
    ∀ (sched : List Nat) (s : FanState α), s.inflight.length ≤ K →
      ∀ st ∈ fanTrace K sched s,
        st.inflight.length ≤ K ∧ (st.pending ≠ [] → st.inflight.length = K) := by
  intro sched
  induction sched with
  | nil =>
      intro s hs st hst
      rw [fanTrace, List.mem_singleton] at hst
      subst hst
      exact ⟨fillSlots_le K s hs, fillSlots_full K s hs⟩
  | cons i rest ih =>
      intro s hs st hst
      rw [fanTrace, List.mem_cons] at hst
      rcases hst with hst | hst
      · subst hst
        exact ⟨fillSlots_le K s hs, fillSlots_full K s hs⟩
      · refine ih (completeOne i (fillSlots K s)) ?_ st hst
        calc (completeOne i (fillSlots K s)).inflight.length
            ≤ (fillSlots K s).inflight.length :=
              eraseIdx_length_le (fillSlots K s).inflight i
          _ ≤ K := fillSlots_le K s hs

/-- C9: in a stage fan-out of width `K` over any input list, along every
completion schedule, every observable state has at most `K` items in flight —
the concurrency bound is never exceeded at any instant, since the moments
between a completion and the next top-up hold strictly fewer items — and
whenever items are still pending the in-flight set holds exactly `K` items:
a completed item's slot is refilled from the pending items before the next
completion, i.e. continuous replenishment rather than round-based batching. -/
theorem c9_fanout_bounded_and_replenished {α : Type} (K : Nat)
    (items : List α) (sched : List Nat) (st : FanState α)
    (hst : st ∈ fanTrace K sched ⟨items, [], []⟩) :
    st.inflight.length ≤ K ∧ (st.pending ≠ [] → st.inflight.length = K) :=
  fanTrace_invariant K sched ⟨items, [], []⟩ (by simp) st hst

/-- Witness for C9: with width 2 and four items, the state after the first
dispatch round is in the trace, holds exactly 2 items in flight (within the
bound), and, having pending items, has all slots occupied. -/
theorem c9_fanout_bounded_and_replenished_witness :
    (⟨[3, 4], [1, 2], []⟩ : FanState Nat) ∈
      fanTrace 2 [0] ⟨[1, 2, 3, 4], [], []⟩ ∧
    (⟨[3, 4], [1, 2], []⟩ : FanState Nat).inflight.length ≤ 2 ∧
    ((⟨[3, 4], [1, 2], []⟩ : FanState Nat).pending ≠ [] →
      (⟨[3, 4], [1, 2], []⟩ : FanState Nat).inflight.length = 2) :=
  ⟨by decide,
    (c9_fanout_bounded_and_replenished 2 [1, 2, 3, 4] [0] _ (by decide)).1,
    (c9_fanout_bounded_and_replenished 2 [1, 2, 3, 4] [0] _ (by decide)).2⟩
